import Mathlib

/-!
Verification development for the astrotherasus orbital-simulation core.

Shallow embedding of the Python sources over the reals:
  * `scenario_validator.py` — velocity validator (`validate_and_fix_scenario`,
    `smart_validate_scenario`, `circular_orbit_velocity`, `escape_velocity`);
  * `physics_engine.py` — analytic Kepler solver (`solve_kepler`,
    `compute_orbit`) and Hohmann transfer planner (`compute_hohmann`);
  * `rebound_engine.py` — simulation session (`ReboundEngine.step`,
    `get_frame`, `get_orbital_elements`, `get_trajectories`); the external
    REBOUND integrator operations (integrate, energy, osculating orbit) are
    taken as function parameters, since they are library code outside the
    repository.

Modelling conventions:
  * Python floats are modelled as real numbers (exact arithmetic).
  * Python dicts with optional keys are modelled as structures with `Option`
    fields read through `Option.getD`, mirroring `dict.get(key, default)`;
    keys the code never reads or writes are collapsed into an `extra`
    association list.
  * Python's `round(x, n)` is modelled as rounding to the nearest multiple of
    `10^-n` (Mathlib's `round`; the half-even tie rule of Python floats is
    immaterial to every claim below).
  * The human-readable issue strings built by the validator are modelled as a
    structured inductive carrying the same discriminating information: the
    kind of finding, the body's display name, and the numeric values that are
    interpolated into the message.  A string starting with the warning marker
    corresponds to a constructor with `isWarning = true`; the "FIXED" line
    corresponds to the `fixed` constructor.
-/

noncomputable section

/-- Gravitational constant `G_SOLAR = 4·π²` in AU, yr, Msun units
(`scenario_validator.py`, line 9). -/
def G_SOLAR : ℝ := 4 * Real.pi ^ 2

/-- A scenario body: the dict fields the validator reads (`name`, `mass`,
`x`, `y`, `vx`, `vy`), each optional as in a Python dict, plus the remaining
display fields (`color`, `radius`, `type`, ...) as an untouched association
list. -/
structure Body where
  name : Option String
  mass : Option ℝ
  x : Option ℝ
  y : Option ℝ
  vx : Option ℝ
  vy : Option ℝ
  extra : List (String × String)

instance : Inhabited Body := ⟨⟨none, none, none, none, none, none, []⟩⟩

/-- A scenario: its list of bodies plus all other top-level fields
(`name`, `description`, ...) as an untouched association list. -/
structure Scenario where
  meta : List (String × String)
  bodies : List Body

/-- Structured counterpart of the validator's issue strings.  The first three
constructors are the "⚠️" warning findings; `fixed` is the "✓ FIXED" report
line emitted after a correction. -/
inductive Issue
  | tooSlow (bodyName : String) (v need : ℝ)
  | tooFast (bodyName : String) (v vesc : ℝ)
  | suspicious (bodyName : String) (v vcirc rOverCirc : ℝ)
  | fixed (bodyName : String) (vcirc : ℝ)

/-- Whether the issue string starts with the warning marker "⚠️"
(every finding does; the "FIXED" line does not). -/
def Issue.isWarning : Issue → Bool
  | .fixed _ _ => false
  | _ => true

/-- Whether the issue string contains "FIXED". -/
def Issue.isFixed : Issue → Bool
  | .fixed _ _ => true
  | _ => false

/-- Whether the issue is the "TOO FAST (hyperbolic escape)" finding. -/
def Issue.isTooFast : Issue → Bool
  | .tooFast _ _ _ => true
  | _ => false

/-- The display name interpolated into the issue string. -/
def Issue.name : Issue → String
  | .tooSlow n _ _ => n
  | .tooFast n _ _ => n
  | .suspicious n _ _ _ => n
  | .fixed n _ => n

/-- Embedding of `circular_orbit_velocity` (`scenario_validator.py`,
lines 11-15). -/
def circular_orbit_velocity (mass_central radius : ℝ) : ℝ :=
  if radius ≤ 0 ∨ mass_central ≤ 0 then 0
  else Real.sqrt (G_SOLAR * mass_central / radius)

/-- Embedding of `escape_velocity` (`scenario_validator.py`, lines 17-21). -/
def escape_velocity (mass_central radius : ℝ) : ℝ :=
  if radius ≤ 0 ∨ mass_central ≤ 0 then 0
  else Real.sqrt (2 * G_SOLAR * mass_central / radius)

/-- Display name of body number `i`: `body.get("name", f"Body-{i}")`
(`scenario_validator.py`, line 48). -/
def dispName (i : ℕ) (body : Body) : String :=
  body.name.getD ("Body-" ++ toString i)

/-- Distance from the origin, `r = math.sqrt(x**2 + y**2)`
(`scenario_validator.py`, line 56; recomputed identically as `r_len` on
line 97). -/
def radiusOf (body : Body) : ℝ :=
  Real.sqrt ((body.x.getD 0) ^ 2 + (body.y.getD 0) ^ 2)

/-- Current speed, `v_current = math.sqrt(vx**2 + vy**2)`
(`scenario_validator.py`, line 63). -/
def speedOf (body : Body) : ℝ :=
  Real.sqrt ((body.vx.getD 0) ^ 2 + (body.vy.getD 0) ^ 2)

/-- The `if/elif/elif` problem-detection chain of `validate_and_fix_scenario`
(`scenario_validator.py`, lines 70-89), returning the warning finding if the
body is flagged. -/
def classifyBody (nm : String) (v_current v_circular v_escape : ℝ) :
    Option Issue :=
  if v_current < v_circular * 0.3 then
    some (.tooSlow nm v_current v_circular)
  else if v_current > v_escape * 1.5 then
    some (.tooFast nm v_current v_escape)
  else if |v_current - v_circular| > v_circular * 0.5 then
    if v_current / v_circular < 0.7 ∨ v_current / v_circular > 1.4 then
      some (.suspicious nm v_current v_circular (v_current / v_circular))
    else none
  else none

/-- One iteration of the body loop of `validate_and_fix_scenario`
(`scenario_validator.py`, lines 47-108): classify body number `i` (1-based,
as in `enumerate(bodies[1:], start=1)`) against the primary mass, and return
the issues it contributes together with the (possibly corrected) body. -/
def checkBody (M_primary : ℝ) (auto_fix : Bool) (i : ℕ) (body : Body) :
    List Issue × Body :=
  let nm := dispName i body
  let x := body.x.getD 0
  let y := body.y.getD 0
  let r := radiusOf body
  if r < 1e-10 then ([], body)
  else
    let v_circular := circular_orbit_velocity M_primary r
    match classifyBody nm (speedOf body) v_circular
        (escape_velocity M_primary r) with
    | none => ([], body)
    | some issue =>
      if auto_fix then
        ([issue, .fixed nm v_circular],
          { body with vx := some ((-y / r) * v_circular),
                      vy := some ((x / r) * v_circular) })
      else ([issue], body)

/-- The body loop of `validate_and_fix_scenario` over `bodies[1:]`, with the
running `enumerate` index: accumulated issues (in emission order) and the
rebuilt `fixed_bodies` tail. -/
def processBodies (M_primary : ℝ) (auto_fix : Bool) :
    ℕ → List Body → List Issue × List Body
  | _, [] => ([], [])
  | i, b :: bs =>
    let p := checkBody M_primary auto_fix i b
    let q := processBodies M_primary auto_fix (i + 1) bs
    (p.1 ++ q.1, p.2 :: q.2)

/-- The `stats` sub-dict of the validator's return value. -/
structure Stats where
  total_bodies : ℕ
  issues_found : ℕ
  issues_fixed : ℕ

/-- The validator's return dict `{ok, issues, scenario, stats}`; `stats` is
absent (`none`) on the fewer-than-two-bodies early return. -/
structure ValidationResult where
  ok : Bool
  issues : List Issue
  scenario : Scenario
  stats : Option Stats

/-- Embedding of `validate_and_fix_scenario` (`scenario_validator.py`,
lines 23-123). -/
def validate_and_fix_scenario (scenario : Scenario) (auto_fix : Bool) :
    ValidationResult :=
  match scenario.bodies with
  | [] => ⟨true, [], scenario, none⟩
  | [_] => ⟨true, [], scenario, none⟩
  | primary :: rest =>
    let M_primary := primary.mass.getD 1
    let pq := processBodies M_primary auto_fix 1 rest
    let fixed_scenario := { scenario with bodies := primary :: pq.2 }
    let found := (pq.1.filter Issue.isWarning).length
    { ok := found == 0
      issues := pq.1
      scenario := fixed_scenario
      stats := some ⟨scenario.bodies.length, found,
                     (pq.1.filter Issue.isFixed).length⟩ }

/-- Embedding of `smart_validate_scenario` (`scenario_validator.py`,
lines 126-157).  The `verbose` flag only controls a `print`, a side effect
with no influence on the returned value. -/
def smart_validate_scenario (scenario : Scenario) (verbose : Bool) :
    ValidationResult :=
  match scenario.bodies with
  | [] => ⟨true, [], scenario, none⟩
  | [_] => ⟨true, [], scenario, none⟩
  | _ :: _ :: _ =>
    let masses := scenario.bodies.enum.map fun p => (p.1, p.2.mass.getD 0)
    let sorted := masses.mergeSort fun a b => decide (b.2 ≤ a.2)
    let primary_idx := (sorted.headD (0, 0)).1
    let primary := scenario.bodies.getD primary_idx default
    let M_primary := primary.mass.getD 1
    if 2 ≤ sorted.length ∧ (sorted.getD 1 (0, 0)).2 > M_primary * 0.3 then
      validate_and_fix_scenario scenario true
    else
      validate_and_fix_scenario scenario true

/-- The Moon body of the spec's concrete validator example
(`EXAMPLE_BAD_SCENARIOS["moon_falling"]` in the source): `x = 0.00257`,
`y = 0`, `vx = 0`, `vy = 6.396`. -/
def moonBody : Body :=
  { name := some "Moon", mass := some 3.7e-8, x := some 0.00257, y := some 0,
    vx := some 0, vy := some 6.396, extra := [] }

/-- A body sitting exactly at the origin (`r = 0 < 1e-10`). -/
def centerBody : Body :=
  { name := some "Center", mass := some 1e-3, x := some 0, y := some 0,
    vx := none, vy := none, extra := [] }

/-- A scenario with no bodies at all. -/
def emptyScenario : Scenario := ⟨[("name", "Empty")], []⟩

/-! Embedding of `physics_engine.py`. -/

/-- One record of the `SOLAR_SYSTEM` table (`physics_engine.py`, lines 5-14). -/
structure Planet where
  a : ℝ
  e : ℝ
  i : ℝ
  period : ℝ
  color : String
  mass : ℝ

/-- The `SOLAR_SYSTEM` dict lookup, `SOLAR_SYSTEM.get(key)`
(`physics_engine.py`, lines 5-14). -/
def SOLAR_SYSTEM : String → Option Planet := fun key =>
  if key = "mercury" then some ⟨0.387, 0.2056, 7.00, 87.97, "#b5b5b5", 0.055⟩
  else if key = "venus" then some ⟨0.723, 0.0067, 3.39, 224.70, "#e8cda0", 0.815⟩
  else if key = "earth" then some ⟨1.000, 0.0167, 0.00, 365.25, "#4fffb0", 1.000⟩
  else if key = "mars" then some ⟨1.524, 0.0934, 1.85, 686.97, "#ff6b35", 0.107⟩
  else if key = "jupiter" then some ⟨5.203, 0.0489, 1.30, 4332.59, "#c88b3a", 317.8⟩
  else if key = "saturn" then some ⟨9.537, 0.0565, 2.49, 10759.2, "#e4d191", 95.2⟩
  else if key = "uranus" then some ⟨19.19, 0.0457, 0.77, 30688.5, "#7de8e8", 14.5⟩
  else if key = "neptune" then some ⟨30.07, 0.0113, 1.77, 60182.0, "#3f54ba", 17.1⟩
  else none

/-- Model of Python's `str.lower()` (character-wise lowercasing; the body
names in play are ASCII). -/
def strLower (s : String) : String := ⟨s.data.map Char.toLower⟩

/-- Model of Python's `round(x, n)`: rounding to the nearest multiple of
`10^-n` (ties resolved by Mathlib's `round`; the half-even tie rule of CPython
floats differs only on exact ties, which no claim exercises). -/
def roundTo (n : ℕ) (x : ℝ) : ℝ :=
  ((round (x * 10 ^ n) : ℤ) : ℝ) / 10 ^ n

/-- Maximum of a list, as `np.max` on a nonempty array (on an empty array
`np.max` raises; the `0` default is never reached by any claim). -/
def npMax : List ℝ → ℝ
  | [] => 0
  | h :: t => t.foldl max h

/-- Minimum of a list, as `np.min` on a nonempty array. -/
def npMin : List ℝ → ℝ
  | [] => 0
  | h :: t => t.foldl min h

/-- Model of `np.linspace(start, stop, num)`: `num` evenly spaced samples,
endpoint included (for `num = 1` numpy returns `[start]`). -/
def linspace (start stop : ℝ) (num : ℕ) : List ℝ :=
  if num ≤ 1 then (List.range num).map fun _ => start
  else (List.range num).map fun k => start + (stop - start) * k / ((num : ℝ) - 1)

/-- Model of `np.arctan2(y, x)`: the quadrant-aware arctangent. -/
def arctan2 (y x : ℝ) : ℝ :=
  if 0 < x then Real.arctan (y / x)
  else if x < 0 then
    (if 0 ≤ y then Real.arctan (y / x) + Real.pi
     else Real.arctan (y / x) - Real.pi)
  else
    (if 0 < y then Real.pi / 2 else if y < 0 then -(Real.pi / 2) else 0)

/-- The body of the `for _ in range(100)` loop of `solve_kepler`
(`physics_engine.py`, lines 18-23), with the remaining iteration budget as
fuel: compute the Newton correction `dE` elementwise, apply `E += dE`, stop
once the largest `|dE|` falls below `tol` (checked after the update, as in
the source), otherwise continue with the budget decremented.  When the fuel
runs out the last iterate is returned. -/
def solveKeplerLoop (M : List ℝ) (e tol : ℝ) : List ℝ → ℕ → List ℝ
  | E, 0 => E
  | E, fuel + 1 =>
    let dE := List.zipWith
      (fun m Ei => (m - Ei + e * Real.sin Ei) / (1 - e * Real.cos Ei)) M E
    let E' := List.zipWith (· + ·) E dE
    if npMax (dE.map fun d => |d|) < tol then E'
    else solveKeplerLoop M e tol E' fuel

/-- Embedding of `solve_kepler(M, e, tol=1e-10)` (`physics_engine.py`,
lines 16-24): Newton-Raphson on Kepler's equation, vectorized over all
samples, seeded at `E = M.copy()`, at most 100 iterations. -/
def solve_kepler (M : List ℝ) (e : ℝ) (tol : ℝ := 1e-10) : List ℝ :=
  solveKeplerLoop M e tol M 100

/-- The `elements` sub-dict of `compute_orbit`'s return value. -/
structure OrbitElements where
  semi_major_axis_au : ℝ
  eccentricity : ℝ
  period_days : ℝ
  perihelion_au : ℝ
  aphelion_au : ℝ
  max_speed_au_day : ℝ
  min_speed_au_day : ℝ

/-- The return dict of `compute_orbit`. -/
structure Orbit where
  body : String
  x : List ℝ
  y : List ℝ
  r : List ℝ
  v : List ℝ
  t : List ℝ
  color : String
  elements : OrbitElements

/-- Embedding of `compute_orbit` (`physics_engine.py`, lines 26-82). -/
def compute_orbit (body_name : String) (duration_days : ℝ := 365)
    (steps : ℕ := 500) : Option Orbit :=
  match SOLAR_SYSTEM (strLower body_name) with
  | none => none
  | some body =>
    let a := body.a
    let e := body.e
    let period := body.period
    let t := linspace 0 duration_days steps
    let M := t.map fun ti => 2 * Real.pi * ti / period
    let E := solve_kepler M e
    let nu := E.map fun Ei =>
      2 * arctan2 (Real.sqrt (1 + e) * Real.sin (Ei / 2))
        (Real.sqrt (1 - e) * Real.cos (Ei / 2))
    let r := nu.map fun nui => a * (1 - e ^ 2) / (1 + e * Real.cos nui)
    let GM := 4 * Real.pi ^ 2
    let v := r.map fun ri =>
      Real.sqrt (GM * (2 / ri - 1 / a)) * (365.25 / (2 * Real.pi))
    some
      { body := body_name
        x := List.zipWith (fun ri nui => ri * Real.cos nui) r nu
        y := List.zipWith (fun ri nui => ri * Real.sin nui) r nu
        r := r
        v := v
        t := t
        color := body.color
        elements :=
          { semi_major_axis_au := a
            eccentricity := e
            period_days := roundTo 2 period
            perihelion_au := roundTo 4 (a * (1 - e))
            aphelion_au := roundTo 4 (a * (1 + e))
            max_speed_au_day := roundTo 6 (npMax v)
            min_speed_au_day := roundTo 6 (npMin v) } }

/-- The return dict of `compute_hohmann`; `src`/`dst` stand for the Python
keys "from"/"to" (`from` is reserved in Lean). -/
structure Transfer where
  src : String
  dst : String
  r1_au : ℝ
  r2_au : ℝ
  delta_v1 : ℝ
  delta_v2 : ℝ
  total_delta_v : ℝ
  transfer_days : ℝ
  transfer_x : List ℝ
  transfer_y : List ℝ

/-- Embedding of `compute_hohmann` (`physics_engine.py`, lines 84-128). -/
def compute_hohmann (body1 body2 : String) : Option Transfer :=
  match SOLAR_SYSTEM body1, SOLAR_SYSTEM body2 with
  | some b1, some b2 =>
    let r1 := b1.a
    let r2 := b2.a
    let GM := 4 * Real.pi ^ 2
    let v1 := Real.sqrt (GM / r1)
    let v2 := Real.sqrt (GM / r2)
    let a_t := (r1 + r2) / 2
    let v_t1 := Real.sqrt (GM * (2 / r1 - 1 / a_t))
    let v_t2 := Real.sqrt (GM * (2 / r2 - 1 / a_t))
    let dv1 := |v_t1 - v1|
    let dv2 := |v2 - v_t2|
    let T := Real.pi * Real.sqrt (a_t ^ 3 / GM) * 365.25
    let e_t := (r2 - r1) / (r2 + r1)
    let nu := linspace 0 Real.pi 300
    let r_t := nu.map fun nui => a_t * (1 - e_t ^ 2) / (1 + e_t * Real.cos nui)
    some
      { src := body1
        dst := body2
        r1_au := r1
        r2_au := r2
        delta_v1 := roundTo 4 dv1
        delta_v2 := roundTo 4 dv2
        total_delta_v := roundTo 4 (dv1 + dv2)
        transfer_days := roundTo 1 T
        transfer_x := List.zipWith (fun ri nui => ri * Real.cos nui) r_t nu
        transfer_y := List.zipWith (fun ri nui => ri * Real.sin nui) r_t nu }
  | _, _ => none

/-! Embedding of `rebound_engine.py`.  The REBOUND library itself is external
to the repository; its operations used by the engine — `integrate` (advance a
simulation to an absolute time), `energy` (total energy of a state), and
`Particle.orbit` (osculating elements of a particle relative to a primary,
which may raise) — appear as function parameters of the methods that call
them.  `Simulation.copy()` is REBOUND's deep copy, so it is modelled by value
semantics on the state. -/

/-- A REBOUND particle as the engine reads it (`z` and `vz` are always set
to 0 by `load_scenario` and never read back). -/
structure Particle where
  m : ℝ
  x : ℝ
  y : ℝ
  vx : ℝ
  vy : ℝ

instance : Inhabited Particle := ⟨⟨0, 0, 0, 0, 0⟩⟩

/-- The mutable REBOUND simulation state the engine observes: current time
and particle list. -/
structure SimState where
  t : ℝ
  particles : List Particle

/-- One `body_info` record (`rebound_engine.py`, lines 141-146). -/
structure BodyInfo where
  name : String
  color : String
  radius : ℝ
  type : String

/-- Per-body entry of a Frame (`rebound_engine.py`, lines 239-250). -/
structure FrameBody where
  name : String
  x : ℝ
  y : ℝ
  vx : ℝ
  vy : ℝ
  speed : ℝ
  mass : ℝ
  color : String
  radius : ℝ
  type : String

/-- A Frame (`rebound_engine.py`, lines 256-261 and the unloaded case,
lines 227-233). -/
structure Frame where
  t : ℝ
  N : ℕ
  bodies : List FrameBody
  energy_drift : ℝ

/-- The `ReboundEngine` state read by the methods under verification
(`sim`, `body_info`, `t_per_frame`, `scale`, `_E0`; the purely descriptive
`meta`/`bodies`/`initial_scenario` fields play no role in any claim). -/
structure Engine where
  sim : Option SimState
  body_info : List BodyInfo
  t_per_frame : ℝ
  scale : ℝ
  E0 : ℝ

/-- Embedding of `ReboundEngine.get_frame` (`rebound_engine.py`,
lines 221-261); `energy` is REBOUND's `Simulation.energy()`. -/
def Engine.get_frame (energy : SimState → ℝ) (eng : Engine) : Frame :=
  match eng.sim with
  | none => { t := 0.0, N := 0, bodies := [], energy_drift := 0.0 }
  | some s =>
    let bodies := s.particles.enum.map fun ip =>
      let info := eng.body_info.get? ip.1
      { name := (info.map BodyInfo.name).getD ("Body-" ++ toString ip.1)
        x := roundTo 6 ip.2.x
        y := roundTo 6 ip.2.y
        vx := roundTo 6 ip.2.vx
        vy := roundTo 6 ip.2.vy
        speed := roundTo 6 (Real.sqrt (ip.2.vx ^ 2 + ip.2.vy ^ 2))
        mass := roundTo 9 ip.2.m
        color := (info.map BodyInfo.color).getD "#ffffff"
        radius := (info.map BodyInfo.radius).getD 5
        type := (info.map BodyInfo.type).getD "planet" : FrameBody }
    let drift := if eng.E0 ≠ 0 then |(energy s - eng.E0) / eng.E0| else 0.0
    { t := roundTo 6 s.t
      N := s.particles.length
      bodies := bodies
      energy_drift := roundTo 12 drift }

/-- Embedding of `ReboundEngine.step` (`rebound_engine.py`, lines 213-219);
`integrate` is REBOUND's `Simulation.integrate` (advance to an absolute
time), modelled state-passing: the returned engine is the mutated `self`. -/
def Engine.step (integrate : ℝ → SimState → SimState) (energy : SimState → ℝ)
    (eng : Engine) (n_frames : ℕ := 1) : Except String (Frame × Engine) :=
  match eng.sim with
  | none => .error
      "No simulation loaded. Call load_scenario() or load_from_horizons() first."
  | some s =>
    let s' := integrate (s.t + eng.t_per_frame * n_frames) s
    let eng' := { eng with sim := some s' }
    .ok (eng'.get_frame energy, eng')

/-- The osculating-orbit record REBOUND's `Particle.orbit` returns, reduced
to the fields `get_orbital_elements` reads. -/
structure OrbitRec where
  a : ℝ
  e : ℝ
  inc : ℝ
  Omega : ℝ
  omega : ℝ
  f : ℝ
  P : ℝ
  n : ℝ

/-- One entry of `get_orbital_elements`' result: either the rounded element
dict or the `{name, error}` dict produced by the `except` branch. -/
inductive ElementEntry
  | elems (name : String) (a e inc Omega omega f P n : ℝ)
  | err (name : String) (msg : String)

/-- The body-info name lookup
`self.body_info[i]["name"] if i < len(self.body_info) else f"Body-{i}"`. -/
def infoName (eng : Engine) (i : ℕ) : String :=
  match eng.body_info.get? i with
  | some bi => bi.name
  | none => "Body-" ++ toString i

/-- One iteration of the `for i in range(1, N)` loop of
`get_orbital_elements` (`rebound_engine.py`, lines 274-294): the `try`
branch on success of `p.orbit(primary=primary)`, the `except` branch on
failure. -/
def entryFor (orbitOf : Particle → Particle → Except String OrbitRec)
    (eng : Engine) (primary : Particle) (i : ℕ) (p : Particle) : ElementEntry :=
  match orbitOf p primary with
  | .ok orb =>
    .elems (infoName eng i) (roundTo 6 orb.a) (roundTo 6 orb.e)
      (roundTo 3 (orb.inc * 180 / Real.pi)) (roundTo 3 (orb.Omega * 180 / Real.pi))
      (roundTo 3 (orb.omega * 180 / Real.pi)) (roundTo 3 (orb.f * 180 / Real.pi))
      (roundTo 6 orb.P) (roundTo 6 orb.n)
  | .error msg => .err (infoName eng i) msg

/-- The element loop over particles `1..N-1`, with the running index. -/
def elementsLoop (orbitOf : Particle → Particle → Except String OrbitRec)
    (eng : Engine) (primary : Particle) : ℕ → List Particle → List ElementEntry
  | _, [] => []
  | i, p :: ps => entryFor orbitOf eng primary i p ::
      elementsLoop orbitOf eng primary (i + 1) ps

/-- Embedding of `ReboundEngine.get_orbital_elements` (`rebound_engine.py`,
lines 263-296); `orbitOf` is REBOUND's `Particle.orbit(primary=...)`, with
`Except.error` standing for a raised exception. -/
def Engine.get_orbital_elements
    (orbitOf : Particle → Particle → Except String OrbitRec) (eng : Engine) :
    List ElementEntry :=
  match eng.sim with
  | none => []
  | some s =>
    if s.particles.length < 2 then []
    else
      match s.particles with
      | [] => []
      | primary :: tail => elementsLoop orbitOf eng primary 1 tail

/-- The inner `for i, p in enumerate(sim_copy.particles)` of
`get_trajectories` (`rebound_engine.py`, lines 315-316): append each
particle's rounded position to its trajectory list.  `none` models the
`IndexError` raised when the copy holds more particles than `self.sim.N`;
trailing trajectory lists without a matching particle are left as they are,
exactly as in the source loop. -/
def appendPositions (trajs : List (List (ℝ × ℝ))) (ps : List Particle) :
    Option (List (List (ℝ × ℝ))) :=
  match trajs, ps with
  | trajs, [] => some trajs
  | [], _ :: _ => none
  | tr :: trs, p :: ps' =>
    (appendPositions trs ps').map fun rest =>
      (tr ++ [(roundTo 4 p.x, roundTo 4 p.y)]) :: rest

/-- The `for step in range(n_points)` loop of `get_trajectories`
(`rebound_engine.py`, lines 313-316), carried out on the copied state: the
first argument is the current value of `step`, the fuel counts the remaining
iterations. -/
def trajLoop (integrate : ℝ → SimState → SimState) (t_copy dt : ℝ) :
    ℕ → ℕ → SimState → List (List (ℝ × ℝ)) →
    Option (SimState × List (List (ℝ × ℝ)))
  | _, 0, s, trajs => some (s, trajs)
  | step, rem + 1, s, trajs =>
    let s' := integrate (t_copy + step * dt) s
    (appendPositions trajs s'.particles).bind
      (trajLoop integrate t_copy dt (step + 1) rem s')

/-- Embedding of `ReboundEngine.get_trajectories` (`rebound_engine.py`,
lines 298-318), state-passing like `step`: the second component of the
result is `self` after the call.  The loop operates on `sim_copy`, an
independent deep copy of the live state, so the engine is returned as it
came in.  (With `n_points = 0` the source would raise `ZeroDivisionError`
computing `dt`; no claim evaluates it there.) -/
def Engine.get_trajectories (integrate : ℝ → SimState → SimState)
    (eng : Engine) (duration : ℝ) (n_points : ℕ := 200) :
    Option (List (List (ℝ × ℝ)) × Engine) :=
  match eng.sim with
  | none => some ([], eng)
  | some s =>
    let sim_copy := s
    let dt := duration / (n_points : ℝ)
    let trajectories := (List.range s.particles.length).map
      fun _ => ([] : List (ℝ × ℝ))
    (trajLoop integrate sim_copy.t dt 0 n_points sim_copy trajectories).map
      fun pr => (pr.2, eng)

/-- An engine on which no scenario has been loaded (`__init__` defaults:
`sim = None`, `t_per_frame = 0.01`, `scale = 1.0`, `_E0 = 0.0`). -/
def unloadedEngine : Engine :=
  { sim := none, body_info := [], t_per_frame := 0.01, scale := 1.0, E0 := 0.0 }

/-- A central star particle for the concrete engine used as a witness. -/
def primaryW : Particle := ⟨1, 0, 0, 0, 0⟩

/-- A bound (elliptical) planet particle. -/
def ellipticalW : Particle := ⟨0.001, 1, 0, 0, 6.0⟩

/-- An unbound particle (speed far above escape velocity). -/
def unboundW : Particle := ⟨0.001, 2, 0, 0, 100⟩

/-- A model osculating-orbit operation for the witness: well-defined for the
inner particle, raising for the unbound one. -/
def orbitW : Particle → Particle → Except String OrbitRec := fun p _ =>
  if p.x < 2 then .ok ⟨1, 0.1, 0, 0, 0, 0, 1, 6.283⟩
  else .error "unbound orbit"

/-- A loaded three-particle engine used as a witness input. -/
def engineW : Engine :=
  { sim := some ⟨0, [primaryW, ellipticalW, unboundW]⟩
    body_info := [⟨"Star", "#fff200", 20, "star"⟩,
      ⟨"Planet", "#4fffb0", 7, "planet"⟩, ⟨"Comet", "#ffffff", 3, "debris"⟩]
    t_per_frame := 0.01
    scale := 200
    E0 := -1 }

/-- A model integration operation for the witness: jumps the clock to the
requested time and keeps the particles. -/
def integW : ℝ → SimState → SimState := fun T s => ⟨T, s.particles⟩

/-- The state of `sim_copy` after `k` iterations of the `get_trajectories`
loop: iteration `k` integrates to the absolute time `t_copy + k·dt`. -/
def trajState (integrate : ℝ → SimState → SimState) (t_copy dt : ℝ)
    (s : SimState) : ℕ → SimState
  | 0 => s
  | k + 1 => integrate (t_copy + k * dt) (trajState integrate t_copy dt s k)

/-- The rounded position sample of body `i` recorded by iteration `k-1` of
the `get_trajectories` loop (i.e. taken from the copied state after it has
been integrated to `t_copy + (k-1)·dt`). -/
def posSample (integrate : ℝ → SimState → SimState) (t0 dt : ℝ)
    (s : SimState) (i k : ℕ) : ℝ × ℝ :=
  (roundTo 4 ((trajState integrate t0 dt s k).particles.getD i default).x,
   roundTo 4 ((trajState integrate t0 dt s k).particles.getD i default).y)

/-! Spec-side transcription of the §4.1 algorithm description (for the
refinement comparison of the analytic orbit solver), with the speed step
amended by the source's AU/day conversion factor `365.25/(2π)`. -/

/-- The Newton correction `(M − E + e·sin E) / (1 − e·cos E)` of one sample,
as the spec states it. -/
def specKeplerCorrection (e m Ei : ℝ) : ℝ :=
  (m - Ei + e * Real.sin Ei) / (1 - e * Real.cos Ei)

/-- Newton-Raphson for Kepler's equation as §4.1 describes it: vectorized
across all samples, iterate `E += (M − E + e·sin E)/(1 − e·cos E)`, stop when
the maximum absolute correction falls below `tol` or when the iteration
budget is exhausted, the last iterate being used on non-convergence. -/
def specNewtonKepler (e tol : ℝ) (Ms : List ℝ) : ℕ → List ℝ → List ℝ
  | 0, Es => Es
  | budget + 1, Es =>
    let corrections := List.zipWith (specKeplerCorrection e) Ms Es
    let updated := List.zipWith (· + ·) Es corrections
    if npMax (corrections.map fun c => |c|) < tol then updated
    else specNewtonKepler e tol Ms budget updated

/-- True anomaly from the eccentric anomaly via the half-angle arctangent
form, as the spec states it. -/
def specTrueAnomaly (e Ei : ℝ) : ℝ :=
  2 * arctan2 (Real.sqrt (1 + e) * Real.sin (Ei / 2))
    (Real.sqrt (1 - e) * Real.cos (Ei / 2))

/-- Radius from the polar conic equation `r = a(1−e²)/(1+e·cos ν)`. -/
def specConicRadius (a e nui : ℝ) : ℝ :=
  a * (1 - e ^ 2) / (1 + e * Real.cos nui)

/-- The vis-viva speed `√(GM·(2/r − 1/a))` with `GM = 4π²`. -/
def specVisViva (a ri : ℝ) : ℝ :=
  Real.sqrt (4 * Real.pi ^ 2 * (2 / ri - 1 / a))

/-- The analytic orbit solver as the claim describes it, step by step: mean
anomaly `M = 2π·t/P` per sample; eccentric anomaly by the vectorized Newton
iteration seeded at `E₀ = M` with tolerance `1e-10` and an iteration budget
of 100; true anomaly by the half-angle form; radius by the conic equation;
Cartesian coordinates `(r·cos ν, r·sin ν)`; and speed equal to the vis-viva
value TIMES the source's AU/day factor `365.25/(2π)` (the amendment: the
claim as frozen omits this factor). -/
def compute_orbit_specSteps (body_name : String) (duration_days : ℝ)
    (steps : ℕ) : Option Orbit :=
  match SOLAR_SYSTEM (strLower body_name) with
  | none => none
  | some body =>
    let ts := linspace 0 duration_days steps
    let Ms := ts.map fun ti => 2 * Real.pi * ti / body.period
    let Es := specNewtonKepler body.e 1e-10 Ms 100 Ms
    let nus := Es.map (specTrueAnomaly body.e)
    let rs := nus.map (specConicRadius body.a body.e)
    let vs := rs.map fun ri => specVisViva body.a ri * (365.25 / (2 * Real.pi))
    some
      { body := body_name
        x := List.zipWith (fun ri nui => ri * Real.cos nui) rs nus
        y := List.zipWith (fun ri nui => ri * Real.sin nui) rs nus
        r := rs
        v := vs
        t := ts
        color := body.color
        elements :=
          { semi_major_axis_au := body.a
            eccentricity := body.e
            period_days := roundTo 2 body.period
            perihelion_au := roundTo 4 (body.a * (1 - body.e))
            aphelion_au := roundTo 4 (body.a * (1 + body.e))
            max_speed_au_day := roundTo 6 (npMax vs)
            min_speed_au_day := roundTo 6 (npMin vs) } }

end

/-! Supporting lemmas. -/

lemma G_SOLAR_pos : 0 < G_SOLAR := by
  have h := Real.pi_pos
  unfold G_SOLAR
  positivity

lemma circular_nonneg (m r : ℝ) : 0 ≤ circular_orbit_velocity m r := by
  unfold circular_orbit_velocity
  split_ifs
  · exact le_refl 0
  · exact Real.sqrt_nonneg _

lemma escape_eq (m r : ℝ) :
    escape_velocity m r = Real.sqrt 2 * circular_orbit_velocity m r := by
  unfold escape_velocity circular_orbit_velocity
  split_ifs with h
  · simp
  · rw [show 2 * G_SOLAR * m / r = 2 * (G_SOLAR * m / r) by ring,
      Real.sqrt_mul (by norm_num : (0:ℝ) ≤ 2)]

lemma circular_eq_sqrt (m : ℝ) {r : ℝ} (hr : 0 < r) :
    circular_orbit_velocity m r = Real.sqrt (G_SOLAR * m / r) := by
  unfold circular_orbit_velocity
  split_ifs with h
  · rcases h with h | h
    · linarith
    · have hGm : G_SOLAR * m ≤ 0 := by nlinarith [G_SOLAR_pos]
      symm
      rw [Real.sqrt_eq_zero']
      exact div_nonpos_of_nonpos_of_nonneg hGm hr.le
  · rfl

lemma escape_eq_sqrt (m : ℝ) {r : ℝ} (hr : 0 < r) :
    escape_velocity m r = Real.sqrt (2 * G_SOLAR * m / r) := by
  unfold escape_velocity
  split_ifs with h
  · rcases h with h | h
    · linarith
    · have hGm : 2 * G_SOLAR * m ≤ 0 := by nlinarith [G_SOLAR_pos]
      symm
      rw [Real.sqrt_eq_zero']
      exact div_nonpos_of_nonpos_of_nonneg hGm hr.le
  · rfl

lemma classifyBody_none_iff (nm : String) (v vc ve : ℝ) :
    classifyBody nm v vc ve = none ↔
      ¬(v < vc * 0.3) ∧ ¬(v > ve * 1.5) ∧
        ¬(|v - vc| > vc * 0.5 ∧ (v / vc < 0.7 ∨ v / vc > 1.4)) := by
  unfold classifyBody
  split_ifs with h1 h2 h3 h4 <;> simp_all

lemma classifyBody_circular (nm : String) (vc ve : ℝ) (hvc : 0 ≤ vc)
    (hve : ve = Real.sqrt 2 * vc) : classifyBody nm vc vc ve = none := by
  subst hve
  have h2 : (1:ℝ) ≤ Real.sqrt 2 := by
    rw [show (1:ℝ) = Real.sqrt 1 from Real.sqrt_one.symm]
    exact Real.sqrt_le_sqrt (by norm_num)
  unfold classifyBody
  rw [if_neg (by push_neg; linarith), if_neg ?hfast, if_neg ?hsus]
  case hfast =>
    push_neg
    nlinarith [mul_nonneg (sub_nonneg.mpr h2) hvc]
  case hsus =>
    push_neg
    rw [sub_self, abs_zero]
    linarith

lemma checkBody_near (Mp : ℝ) (af : Bool) (i : ℕ) (b : Body)
    (h : radiusOf b < 1e-10) : checkBody Mp af i b = ([], b) := by
  simp only [checkBody]
  rw [if_pos h]

lemma checkBody_not_near (Mp : ℝ) (af : Bool) (i : ℕ) (b : Body)
    (h : ¬ radiusOf b < 1e-10)
    (hcl : classifyBody (dispName i b) (speedOf b)
      (circular_orbit_velocity Mp (radiusOf b))
      (escape_velocity Mp (radiusOf b)) = none) :
    checkBody Mp af i b = ([], b) := by
  simp only [checkBody]
  rw [if_neg h, hcl]

lemma checkBody_flagged_fix (Mp : ℝ) (i : ℕ) (b : Body) (issue : Issue)
    (h : ¬ radiusOf b < 1e-10)
    (hcl : classifyBody (dispName i b) (speedOf b)
      (circular_orbit_velocity Mp (radiusOf b))
      (escape_velocity Mp (radiusOf b)) = some issue) :
    checkBody Mp true i b =
      ([issue, .fixed (dispName i b) (circular_orbit_velocity Mp (radiusOf b))],
        { b with
          vx := some ((-(b.y.getD 0) / radiusOf b) *
            circular_orbit_velocity Mp (radiusOf b))
          vy := some (((b.x.getD 0) / radiusOf b) *
            circular_orbit_velocity Mp (radiusOf b)) }) := by
  simp only [checkBody]
  rw [if_neg h, hcl]
  rfl

lemma checkBody_flagged_nofix (Mp : ℝ) (i : ℕ) (b : Body) (issue : Issue)
    (h : ¬ radiusOf b < 1e-10)
    (hcl : classifyBody (dispName i b) (speedOf b)
      (circular_orbit_velocity Mp (radiusOf b))
      (escape_velocity Mp (radiusOf b)) = some issue) :
    checkBody Mp false i b = ([issue], b) := by
  simp only [checkBody]
  rw [if_neg h, hcl]
  rfl

lemma checkBody_corrected (Mp : ℝ) (af : Bool) (i : ℕ) (b : Body)
    (hr : ¬ radiusOf b < 1e-10)
    (hvx : b.vx = some ((-(b.y.getD 0) / radiusOf b) *
      circular_orbit_velocity Mp (radiusOf b)))
    (hvy : b.vy = some (((b.x.getD 0) / radiusOf b) *
      circular_orbit_velocity Mp (radiusOf b))) :
    checkBody Mp af i b = ([], b) := by
  have hrpos : 0 < radiusOf b := lt_of_lt_of_le (by norm_num) (not_lt.mp hr)
  have hsq : (radiusOf b) ^ 2 = (b.x.getD 0) ^ 2 + (b.y.getD 0) ^ 2 := by
    unfold radiusOf
    exact Real.sq_sqrt (by positivity)
  have hspeed : speedOf b = circular_orbit_velocity Mp (radiusOf b) := by
    unfold speedOf
    rw [hvx, hvy]
    simp only [Option.getD_some]
    have halg : ((-(b.y.getD 0) / radiusOf b) *
          circular_orbit_velocity Mp (radiusOf b)) ^ 2 +
        (((b.x.getD 0) / radiusOf b) *
          circular_orbit_velocity Mp (radiusOf b)) ^ 2 =
        (((b.x.getD 0) ^ 2 + (b.y.getD 0) ^ 2) / (radiusOf b) ^ 2) *
          circular_orbit_velocity Mp (radiusOf b) ^ 2 := by
      ring
    rw [halg, ← hsq, div_self (pow_ne_zero 2 hrpos.ne'), one_mul,
      Real.sqrt_sq (circular_nonneg Mp (radiusOf b))]
  refine checkBody_not_near Mp af i b hr ?_
  rw [hspeed]
  exact classifyBody_circular _ _ _ (circular_nonneg _ _) (escape_eq _ _)

lemma checkBody_idem (Mp : ℝ) (i : ℕ) (b : Body) :
    checkBody Mp true i ((checkBody Mp true i b).2) =
      ([], (checkBody Mp true i b).2) := by
  by_cases hr : radiusOf b < 1e-10
  · rw [checkBody_near Mp true i b hr]
    simpa using checkBody_near Mp true i b hr
  · cases hcl : classifyBody (dispName i b) (speedOf b)
        (circular_orbit_velocity Mp (radiusOf b))
        (escape_velocity Mp (radiusOf b)) with
    | none =>
      rw [checkBody_not_near Mp true i b hr hcl]
      simpa using checkBody_not_near Mp true i b hr hcl
    | some issue =>
      rw [checkBody_flagged_fix Mp i b issue hr hcl]
      have hb' := checkBody_corrected Mp true i
        ({ b with
          vx := some ((-(b.y.getD 0) / radiusOf b) *
            circular_orbit_velocity Mp (radiusOf b))
          vy := some (((b.x.getD 0) / radiusOf b) *
            circular_orbit_velocity Mp (radiusOf b)) }) hr rfl rfl
      simpa using hb'

lemma processBodies_idem (Mp : ℝ) (i : ℕ) (bs : List Body) :
    processBodies Mp true i ((processBodies Mp true i bs).2) =
      ([], (processBodies Mp true i bs).2) := by
  induction bs generalizing i with
  | nil => rfl
  | cons b bs ih =>
    simp only [processBodies]
    rw [checkBody_idem Mp i b, ih (i + 1)]
    simp

lemma processBodies_length (Mp : ℝ) (af : Bool) (i : ℕ) (bs : List Body) :
    (processBodies Mp af i bs).2.length = bs.length := by
  induction bs generalizing i with
  | nil => rfl
  | cons b bs ih =>
    simp only [processBodies, List.length_cons]
    rw [ih (i + 1)]

/-- C2: `validate_and_fix_scenario` with `auto_fix=True` is idempotent:
applied to its own output scenario it reports zero new findings, returns its
input scenario unchanged, and reports `ok = true`. -/
theorem validate_and_fix_idempotent (s : Scenario) :
    (validate_and_fix_scenario
        (validate_and_fix_scenario s true).scenario true).issues = [] ∧
    (validate_and_fix_scenario
        (validate_and_fix_scenario s true).scenario true).scenario =
      (validate_and_fix_scenario s true).scenario ∧
    (validate_and_fix_scenario
        (validate_and_fix_scenario s true).scenario true).ok = true := by
  obtain ⟨meta, bodies⟩ := s
  cases bodies with
  | nil => exact ⟨rfl, rfl, rfl⟩
  | cons p rest =>
    cases rest with
    | nil => exact ⟨rfl, rfl, rfl⟩
    | cons b2 rest2 =>
      simp only [validate_and_fix_scenario, processBodies]
      rw [checkBody_idem (p.mass.getD 1) 1 b2, processBodies_idem (p.mass.getD 1) 2 rest2]
      simp

lemma classifyBody_some_isWarning (nm : String) (v vc ve : ℝ) (issue : Issue)
    (h : classifyBody nm v vc ve = some issue) : issue.isWarning = true := by
  unfold classifyBody at h
  split_ifs at h <;> (try simp_all) <;> (subst h; rfl)

lemma classifyBody_some_name (nm : String) (v vc ve : ℝ) (issue : Issue)
    (h : classifyBody nm v vc ve = some issue) : issue.name = nm := by
  unfold classifyBody at h
  split_ifs at h <;> (try simp_all) <;> (subst h; rfl)

lemma checkBody_frame (Mp : ℝ) (af : Bool) (i : ℕ) (b : Body) :
    ((checkBody Mp af i b).2.name = b.name ∧
      (checkBody Mp af i b).2.mass = b.mass ∧
      (checkBody Mp af i b).2.x = b.x ∧
      (checkBody Mp af i b).2.y = b.y ∧
      (checkBody Mp af i b).2.extra = b.extra) ∧
    ((checkBody Mp af i b).2 ≠ b →
      ∃ it ∈ (checkBody Mp af i b).1, it.isWarning = true ∧
        it.name = dispName i b) := by
  by_cases hr : radiusOf b < 1e-10
  · rw [checkBody_near Mp af i b hr]
    exact ⟨⟨rfl, rfl, rfl, rfl, rfl⟩, fun h => absurd rfl h⟩
  · cases hcl : classifyBody (dispName i b) (speedOf b)
        (circular_orbit_velocity Mp (radiusOf b))
        (escape_velocity Mp (radiusOf b)) with
    | none =>
      rw [checkBody_not_near Mp af i b hr hcl]
      exact ⟨⟨rfl, rfl, rfl, rfl, rfl⟩, fun h => absurd rfl h⟩
    | some issue =>
      have hw : issue.isWarning = true :=
        classifyBody_some_isWarning _ _ _ _ _ hcl
      have hnm : issue.name = dispName i b :=
        classifyBody_some_name _ _ _ _ _ hcl
      cases af with
      | true =>
        rw [checkBody_flagged_fix Mp i b issue hr hcl]
        exact ⟨⟨rfl, rfl, rfl, rfl, rfl⟩,
          fun _ => ⟨issue, by simp, hw, hnm⟩⟩
      | false =>
        rw [checkBody_flagged_nofix Mp i b issue hr hcl]
        exact ⟨⟨rfl, rfl, rfl, rfl, rfl⟩, fun h => absurd rfl h⟩

lemma processBodies_get? (Mp : ℝ) (af : Bool) (i : ℕ) (bs : List Body)
    (j : ℕ) :
    (processBodies Mp af i bs).2.get? j =
      (bs.get? j).map fun b => (checkBody Mp af (i + j) b).2 := by
  induction bs generalizing i j with
  | nil => simp [processBodies]
  | cons b bs ih =>
    cases j with
    | zero => simp [processBodies]
    | succ j' =>
      simp only [processBodies, List.get?_cons_succ]
      rw [ih (i + 1) j', show i + 1 + j' = i + (j' + 1) from by omega]

lemma processBodies_issues_mem (Mp : ℝ) (af : Bool) (i : ℕ) (bs : List Body)
    (j : ℕ) (b : Body) (hj : bs.get? j = some b) :
    ∀ it ∈ (checkBody Mp af (i + j) b).1, it ∈ (processBodies Mp af i bs).1 := by
  induction bs generalizing i j with
  | nil => simp at hj
  | cons hd tl ih =>
    cases j with
    | zero =>
      simp only [List.get?_cons_zero, Option.some.injEq] at hj
      subst hj
      intro it hit
      simp only [processBodies, List.mem_append]
      exact Or.inl (by simpa using hit)
    | succ j' =>
      simp only [List.get?_cons_succ] at hj
      intro it hit
      simp only [processBodies, List.mem_append]
      refine Or.inr (ih (i + 1) j' hj it ?_)
      have : i + (j' + 1) = i + 1 + j' := by omega
      rw [this] at hit
      exact hit

lemma specNewtonKepler_eq (e tol : ℝ) (Ms : List ℝ) :
    ∀ (fuel : ℕ) (Es : List ℝ),
      specNewtonKepler e tol Ms fuel Es = solveKeplerLoop Ms e tol Es fuel := by
  intro fuel
  induction fuel with
  | zero => intro Es; rfl
  | succ n ih =>
    intro Es
    have hz : List.zipWith (specKeplerCorrection e) Ms Es =
        List.zipWith
          (fun m Ei => (m - Ei + e * Real.sin Ei) / (1 - e * Real.cos Ei))
          Ms Es := rfl
    simp only [specNewtonKepler, solveKeplerLoop, hz]
    split_ifs with h
    · rfl
    · exact ih _

/-- C5 (amended): `compute_orbit` follows exactly the steps the claim lists —
mean anomaly `2π·t/P`, Newton-Raphson seeded at `E₀ = M` with the stated
update, stopping rule, tolerance `1e-10` and 100-iteration budget, half-angle
true anomaly, polar conic radius, Cartesian coordinates — except that the
returned speed is the vis-viva value MULTIPLIED by the source's AU/day
conversion factor `365.25/(2π)`, not the bare vis-viva value the claim
states. -/
theorem compute_orbit_matches_spec (body_name : String) (duration_days : ℝ)
    (steps : ℕ) :
    compute_orbit body_name duration_days steps =
      compute_orbit_specSteps body_name duration_days steps := by
  simp only [compute_orbit, compute_orbit_specSteps, solve_kepler]
  cases h : SOLAR_SYSTEM (strLower body_name) with
  | none => rfl
  | some body =>
    simp only [specNewtonKepler_eq]
    rfl

lemma linspace_one (a b : ℝ) : linspace a b 1 = [a] := by
  unfold linspace
  norm_num [List.range_succ]

lemma kepler_zero (e tol : ℝ) (htol : 0 < tol) (n : ℕ) :
    solveKeplerLoop [0] e tol [0] (n + 1) = [0] := by
  simp only [solveKeplerLoop]
  norm_num [List.zipWith, npMax, Real.sin_zero, Real.cos_zero, htol]

lemma solar_earth :
    SOLAR_SYSTEM "earth" = some ⟨1.000, 0.0167, 0.00, 365.25, "#4fffb0", 1.000⟩ := by
  rfl

lemma arctan2_zero_of_pos (x : ℝ) (hx : 0 < x) : arctan2 0 x = 0 := by
  unfold arctan2
  rw [if_pos hx, zero_div, Real.arctan_zero]

/-- Counterexample for C5 as frozen: at the single-sample Earth orbit the
returned speed is the vis-viva value times `365.25/(2π)`, and is therefore
NOT equal to the vis-viva value `√(GM·(2/r − 1/a))` itself. -/
theorem compute_orbit_speed_counterexample :
    ∃ orb, compute_orbit "earth" 365 1 = some orb ∧
      orb.v = [Real.sqrt (4 * Real.pi ^ 2 *
          (2 / ((1.000:ℝ) * (1 - 0.0167 ^ 2) / (1 + 0.0167)) - 1 / 1.000)) *
        (365.25 / (2 * Real.pi))] ∧
      orb.v ≠ [Real.sqrt (4 * Real.pi ^ 2 *
          (2 / ((1.000:ℝ) * (1 - 0.0167 ^ 2) / (1 + 0.0167)) - 1 / 1.000))] := by
  have hlower : strLower "earth" = "earth" := by decide
  have hE : solveKeplerLoop [(0:ℝ)] 0.0167 1e-10 [0] 100 = [0] := by
    have h := kepler_zero 0.0167 1e-10 (by norm_num) 99
    norm_num at h ⊢
    exact h
  have harct0 : arctan2 0 (Real.sqrt (1 - 0.0167)) = 0 :=
    arctan2_zero_of_pos _ (Real.sqrt_pos.mpr (by norm_num))
  have hv : ∀ orb, compute_orbit "earth" 365 1 = some orb →
      orb.v = [Real.sqrt (4 * Real.pi ^ 2 *
          (2 / ((1.000:ℝ) * (1 - 0.0167 ^ 2) / (1 + 0.0167)) - 1 / 1.000)) *
        (365.25 / (2 * Real.pi))] := by
    intro orb horb
    simp only [compute_orbit, hlower, solar_earth, solve_kepler, linspace_one,
      List.map_cons, List.map_nil, mul_zero, zero_div, hE] at horb
    rw [Option.some.injEq] at horb
    subst horb
    simp only [List.map_cons, List.map_nil]
    rw [Real.sin_zero, Real.cos_zero, mul_zero, mul_one, harct0, mul_zero,
      Real.cos_zero, mul_one]
  have hsome : ∃ orb, compute_orbit "earth" 365 1 = some orb := by
    simp only [compute_orbit, hlower, solar_earth]
    exact ⟨_, rfl⟩
  obtain ⟨orb, horb⟩ := hsome
  refine ⟨orb, horb, hv orb horb, ?_⟩
  rw [hv orb horb]
  intro heq
  simp only [List.cons.injEq, and_true] at heq
  set K := 4 * Real.pi ^ 2 *
    (2 / ((1.000:ℝ) * (1 - 0.0167 ^ 2) / (1 + 0.0167)) - 1 / 1.000) with hK
  have hKpos : 0 < K := by
    rw [hK]
    have hR : (0:ℝ) < (1.000:ℝ) * (1 - 0.0167 ^ 2) / (1 + 0.0167) := by
      norm_num
    have h2R : (0:ℝ) < 2 / ((1.000:ℝ) * (1 - 0.0167 ^ 2) / (1 + 0.0167)) -
        1 / 1.000 := by
      rw [sub_pos, show (1:ℝ) / 1.000 = 1 by norm_num, lt_div_iff hR]
      norm_num
    have := Real.pi_pos
    positivity
  have ha : 0 < Real.sqrt K := Real.sqrt_pos.mpr hKpos
  have hpi := Real.pi_pos
  have hlt := Real.pi_lt_four
  have hc : 1 < 365.25 / (2 * Real.pi) := by
    rw [lt_div_iff (by positivity)]
    nlinarith [hlt]
  have hlt2 : Real.sqrt K * 1 < Real.sqrt K * (365.25 / (2 * Real.pi)) :=
    mul_lt_mul_of_pos_left hc ha
  rw [mul_one] at hlt2
  linarith [heq, hlt2]

/-- C1 (amended): for a transfer between two equal circular radii
(`r1 = r2 = a`, obtained by planning a transfer from a body to itself), both
delta-v components and the total are exactly 0 and the result is a valid
dict, not an error; the transfer time however is the rounded half-ellipse
period `π·√(a³/GM)·365.25` days — not 0 as the claim states (for `a = 1` it
is 182.6 days, see the counterexample). -/
theorem hohmann_equal_radii (b : String) (p : Planet)
    (h : SOLAR_SYSTEM b = some p) :
    ∃ tr, compute_hohmann b b = some tr ∧ tr.delta_v1 = 0 ∧
      tr.delta_v2 = 0 ∧ tr.total_delta_v = 0 ∧
      tr.transfer_days =
        roundTo 1 (Real.pi * Real.sqrt (p.a ^ 3 / (4 * Real.pi ^ 2)) * 365.25) := by
  have ha : (p.a + p.a) / 2 = p.a := by ring
  simp only [compute_hohmann, h, ha]
  refine ⟨_, rfl, ?_, ?_, ?_, ?_⟩
  · rw [show 4 * Real.pi ^ 2 * (2 / p.a - 1 / p.a) = 4 * Real.pi ^ 2 / p.a
      by ring, sub_self, abs_zero]
    simp [roundTo]
  · rw [show 4 * Real.pi ^ 2 * (2 / p.a - 1 / p.a) = 4 * Real.pi ^ 2 / p.a
      by ring, sub_self, abs_zero]
    simp [roundTo]
  · rw [show 4 * Real.pi ^ 2 * (2 / p.a - 1 / p.a) = 4 * Real.pi ^ 2 / p.a
      by ring, sub_self, abs_zero, add_zero]
    simp [roundTo]
  · rfl

/-- Witness for C1: the amended statement evaluated at the Earth-to-Earth
transfer. -/
theorem hohmann_equal_radii_witness :
    ∃ tr, compute_hohmann "earth" "earth" = some tr ∧ tr.delta_v1 = 0 ∧
      tr.delta_v2 = 0 ∧ tr.total_delta_v = 0 ∧
      tr.transfer_days =
        roundTo 1 (Real.pi * Real.sqrt ((1.000:ℝ) ^ 3 / (4 * Real.pi ^ 2)) * 365.25) :=
  hohmann_equal_radii "earth" ⟨1.000, 0.0167, 0.00, 365.25, "#4fffb0", 1.000⟩
    solar_earth

/-- Counterexample for C1 as frozen: the Earth-to-Earth transfer returns a
transfer time of 182.6 days (the rounded half-period of the circular orbit),
which is not 0. -/
theorem hohmann_equal_radii_counterexample :
    (compute_hohmann "earth" "earth").map Transfer.transfer_days =
      some 182.6 ∧ ((182.6 : ℝ) ≠ 0) := by
  have hπ := Real.pi_pos
  constructor
  · simp only [compute_hohmann, solar_earth, Option.map_some']
    have h1 : Real.sqrt ((((1.000:ℝ) + 1.000) / 2) ^ 3 / (4 * Real.pi ^ 2)) =
        1 / (2 * Real.pi) := by
      rw [show ((((1.000:ℝ) + 1.000) / 2) ^ 3 / (4 * Real.pi ^ 2)) =
          (1 / (2 * Real.pi)) ^ 2 by
        field_simp
        ring]
      exact Real.sqrt_sq (by positivity)
    congr 1
    rw [h1, show Real.pi * (1 / (2 * Real.pi)) * 365.25 = 182.625 by
      field_simp
      ring]
    unfold roundTo
    rw [round_eq]
    norm_num
  · norm_num

/-- C10: the validator's output differs from its input in at most the `vx`
and `vy` fields of bodies that appear among the flagged issues: all other
scenario fields, the body list's length, the body at index 0, and every
other field of every body are returned unchanged; a scenario with fewer
than two bodies is returned as is, with `ok = true`, no issues and no
stats. -/
theorem validate_and_fix_frame_effect (s : Scenario) (af : Bool) :
    (s.bodies.length < 2 →
      validate_and_fix_scenario s af = ⟨true, [], s, none⟩) ∧
    (validate_and_fix_scenario s af).scenario.meta = s.meta ∧
    (validate_and_fix_scenario s af).scenario.bodies.length =
      s.bodies.length ∧
    (validate_and_fix_scenario s af).scenario.bodies.head? =
      s.bodies.head? ∧
    ∀ j b b', s.bodies.get? j = some b →
      (validate_and_fix_scenario s af).scenario.bodies.get? j = some b' →
      (b'.name = b.name ∧ b'.mass = b.mass ∧ b'.x = b.x ∧ b'.y = b.y ∧
        b'.extra = b.extra) ∧
      (b' ≠ b → ∃ it ∈ (validate_and_fix_scenario s af).issues,
        it.isWarning = true ∧ it.name = dispName j b) := by
  obtain ⟨meta, bodies⟩ := s
  cases bodies with
  | nil =>
    refine ⟨fun _ => rfl, rfl, rfl, rfl, fun j b b' hb hb' => ?_⟩
    simp at hb
  | cons p rest =>
    cases rest with
    | nil =>
      refine ⟨fun _ => rfl, rfl, rfl, rfl, fun j b b' hb hb' => ?_⟩
      have : b' = b := by
        have h1 : (validate_and_fix_scenario ⟨meta, [p]⟩ af).scenario =
            ⟨meta, [p]⟩ := rfl
        rw [h1] at hb'
        rw [hb] at hb'
        exact (Option.some.injEq _ _ ▸ hb').symm
      subst this
      exact ⟨⟨rfl, rfl, rfl, rfl, rfl⟩, fun h => absurd rfl h⟩
    | cons b2 rest2 =>
      refine ⟨fun h => absurd h (by simp), rfl, ?_, rfl, ?_⟩
      · show (p :: (processBodies (p.mass.getD 1) af 1 (b2 :: rest2)).2).length =
          (p :: b2 :: rest2).length
        simp [processBodies_length]
      · intro j b b' hb hb'
        replace hb' : (p :: (processBodies (p.mass.getD 1) af 1
            (b2 :: rest2)).2).get? j = some b' := hb'
        cases j with
        | zero =>
          simp only [List.get?_cons_zero, Option.some.injEq] at hb hb'
          subst hb
          subst hb'
          exact ⟨⟨rfl, rfl, rfl, rfl, rfl⟩, fun h => absurd rfl h⟩
        | succ j' =>
          simp only [List.get?_cons_succ] at hb hb'
          rw [processBodies_get? (p.mass.getD 1) af 1 (b2 :: rest2) j', hb,
            Option.map_some'] at hb'
          have hb'' : b' = (checkBody (p.mass.getD 1) af (1 + j') b).2 :=
            (Option.some.injEq _ _ ▸ hb').symm
          subst hb''
          have hframe := checkBody_frame (p.mass.getD 1) af (1 + j') b
          refine ⟨hframe.1, fun hne => ?_⟩
          obtain ⟨it, hmem, hwarn, hname⟩ := hframe.2 hne
          refine ⟨it, ?_, hwarn, ?_⟩
          · exact processBodies_issues_mem (p.mass.getD 1) af 1
              (b2 :: rest2) j' b hb it hmem
          · rw [hname]
            congr 1
            omega

/-- Witness for C10: the fewer-than-two-bodies early return evaluated on the
empty scenario. -/
theorem validate_and_fix_frame_effect_witness :
    validate_and_fix_scenario emptyScenario true =
      ⟨true, [], emptyScenario, none⟩ :=
  (validate_and_fix_frame_effect emptyScenario true).1
    (by simp [emptyScenario])

/-- C3: a non-primary body at radius `r > 1e-10` is flagged by the validator
exactly when its speed is below `0.3·v_circ`, above `1.5·v_esc`, or deviates
from `v_circ` by more than `0.5·v_circ` with the ratio `v/v_circ` outside
`[0.7, 1.4]`, where `v_circ = √(G·M/r)` and `v_esc = √(2·G·M/r)`; a body
that is not flagged is passed through unchanged with no issue emitted. -/
theorem velocity_classification (M_primary : ℝ) (auto_fix : Bool) (i : ℕ)
    (b : Body) (hr : 1e-10 < radiusOf b) :
    ((checkBody M_primary auto_fix i b).1.any Issue.isWarning = true ↔
      (speedOf b < 0.3 * Real.sqrt (G_SOLAR * M_primary / radiusOf b) ∨
       speedOf b > 1.5 * Real.sqrt (2 * G_SOLAR * M_primary / radiusOf b) ∨
       (|speedOf b - Real.sqrt (G_SOLAR * M_primary / radiusOf b)| >
          0.5 * Real.sqrt (G_SOLAR * M_primary / radiusOf b) ∧
        (speedOf b / Real.sqrt (G_SOLAR * M_primary / radiusOf b) < 0.7 ∨
         speedOf b / Real.sqrt (G_SOLAR * M_primary / radiusOf b) > 1.4)))) ∧
    ((checkBody M_primary auto_fix i b).1.any Issue.isWarning = false →
      checkBody M_primary auto_fix i b = ([], b)) := by
  have hrpos : 0 < radiusOf b := lt_trans (by norm_num) hr
  have hnn : ¬ radiusOf b < 1e-10 := not_lt.mpr (le_of_lt hr)
  have hcirc := circular_eq_sqrt M_primary hrpos
  have hesc := escape_eq_sqrt M_primary hrpos
  cases hcl : classifyBody (dispName i b) (speedOf b)
      (circular_orbit_velocity M_primary (radiusOf b))
      (escape_velocity M_primary (radiusOf b)) with
  | none =>
    obtain ⟨h1, h2, h3⟩ := (classifyBody_none_iff _ _ _ _).mp hcl
    rw [hcirc] at h1 h3
    rw [hesc] at h2
    rw [not_lt] at h1
    rw [not_lt] at h2
    rw [checkBody_not_near M_primary auto_fix i b hnn hcl]
    refine ⟨?_, fun _ => rfl⟩
    simp only [List.any_nil]
    constructor
    · intro hfalse
      exact absurd hfalse (by simp)
    · rintro (hd | hd | ⟨hd1, hd2⟩)
      · linarith
      · linarith
      · exact absurd ⟨by linarith, hd2⟩ h3
  | some issue =>
    have hw : issue.isWarning = true :=
      classifyBody_some_isWarning _ _ _ _ _ hcl
    have hne : classifyBody (dispName i b) (speedOf b)
        (circular_orbit_velocity M_primary (radiusOf b))
        (escape_velocity M_primary (radiusOf b)) ≠ none := by
      rw [hcl]
      simp
    have hcode : speedOf b < circular_orbit_velocity M_primary (radiusOf b) * 0.3 ∨
        speedOf b > escape_velocity M_primary (radiusOf b) * 1.5 ∨
        (|speedOf b - circular_orbit_velocity M_primary (radiusOf b)| >
            circular_orbit_velocity M_primary (radiusOf b) * 0.5 ∧
          (speedOf b / circular_orbit_velocity M_primary (radiusOf b) < 0.7 ∨
           speedOf b / circular_orbit_velocity M_primary (radiusOf b) > 1.4)) := by
      have h' := (classifyBody_none_iff (dispName i b) (speedOf b)
        (circular_orbit_velocity M_primary (radiusOf b))
        (escape_velocity M_primary (radiusOf b))).not.mp hne
      tauto
    rw [hcirc, hesc] at hcode
    have hdisj : speedOf b < 0.3 * Real.sqrt (G_SOLAR * M_primary / radiusOf b) ∨
        speedOf b > 1.5 * Real.sqrt (2 * G_SOLAR * M_primary / radiusOf b) ∨
        (|speedOf b - Real.sqrt (G_SOLAR * M_primary / radiusOf b)| >
            0.5 * Real.sqrt (G_SOLAR * M_primary / radiusOf b) ∧
          (speedOf b / Real.sqrt (G_SOLAR * M_primary / radiusOf b) < 0.7 ∨
           speedOf b / Real.sqrt (G_SOLAR * M_primary / radiusOf b) > 1.4)) := by
      rcases hcode with hd | hd | ⟨hd1, hd2⟩
      · exact Or.inl (by linarith)
      · exact Or.inr (Or.inl (by linarith))
      · exact Or.inr (Or.inr ⟨by linarith, hd2⟩)
    cases auto_fix with
    | true =>
      rw [checkBody_flagged_fix M_primary i b issue hnn hcl]
      refine ⟨⟨fun _ => hdisj, fun _ => by simp [hw]⟩, fun hfalse => ?_⟩
      simp [hw] at hfalse
    | false =>
      rw [checkBody_flagged_nofix M_primary i b issue hnn hcl]
      refine ⟨⟨fun _ => hdisj, fun _ => by simp [hw]⟩, fun hfalse => ?_⟩
      simp [hw] at hfalse

lemma moon_radius : radiusOf moonBody = 0.00257 := by
  unfold radiusOf moonBody
  simp only [Option.getD_some]
  rw [show ((0.00257:ℝ) ^ 2 + 0 ^ 2) = 0.00257 ^ 2 by norm_num,
    Real.sqrt_sq (by norm_num)]

lemma moon_speed : speedOf moonBody = 6.396 := by
  unfold speedOf moonBody
  simp only [Option.getD_some]
  rw [show ((0:ℝ) ^ 2 + 6.396 ^ 2) = 6.396 ^ 2 by norm_num,
    Real.sqrt_sq (by norm_num)]

lemma moon_circ_lb : 0.2147 < circular_orbit_velocity 3.003e-6 0.00257 := by
  rw [circular_eq_sqrt _ (by norm_num),
    show G_SOLAR * 3.003e-6 / 0.00257 = 4 * Real.pi ^ 2 * 3.003e-6 / 0.00257
      from by unfold G_SOLAR; ring]
  refine (Real.lt_sqrt (by norm_num)).mpr ?_
  rw [lt_div_iff (by norm_num : (0:ℝ) < 0.00257)]
  nlinarith [Real.pi_gt_d6, Real.pi_pos]

lemma moon_circ_ub : circular_orbit_velocity 3.003e-6 0.00257 < 0.2149 := by
  rw [circular_eq_sqrt _ (by norm_num),
    show G_SOLAR * 3.003e-6 / 0.00257 = 4 * Real.pi ^ 2 * 3.003e-6 / 0.00257
      from by unfold G_SOLAR; ring]
  refine (Real.sqrt_lt' (by norm_num)).mpr ?_
  rw [div_lt_iff (by norm_num : (0:ℝ) < 0.00257)]
  nlinarith [Real.pi_lt_d6, Real.pi_pos]

lemma moon_esc_ub : escape_velocity 3.003e-6 0.00257 < 1 := by
  rw [escape_eq_sqrt _ (by norm_num),
    show 2 * G_SOLAR * 3.003e-6 / 0.00257 =
        8 * Real.pi ^ 2 * 3.003e-6 / 0.00257
      from by unfold G_SOLAR; ring]
  refine (Real.sqrt_lt' (by norm_num)).mpr ?_
  rw [div_lt_iff (by norm_num : (0:ℝ) < 0.00257)]
  nlinarith [Real.pi_lt_d2, Real.pi_pos]

lemma moon_classify :
    classifyBody (dispName 1 moonBody) (speedOf moonBody)
      (circular_orbit_velocity 3.003e-6 (radiusOf moonBody))
      (escape_velocity 3.003e-6 (radiusOf moonBody)) =
    some (.tooFast (dispName 1 moonBody) (speedOf moonBody)
      (escape_velocity 3.003e-6 (radiusOf moonBody))) := by
  rw [moon_radius, moon_speed]
  unfold classifyBody
  rw [if_neg (by push_neg; nlinarith [moon_circ_ub, circular_nonneg 3.003e-6 0.00257]),
    if_pos (by nlinarith [moon_esc_ub])]

/-- C4: a flagged body is corrected by replacing its velocity with
`v_circ · (−y/r, x/r)` (circular speed, perpendicular to the radius,
prograde); a body with `r < 1e-10` is left untouched; in particular the
body at `x = 0.00257, y = 0` with `vy = 6.396` around a primary of mass
`3.003e-6` is classified too fast and corrected to `vx = 0` and
`vy ≈ 0.2148` (within `1e-4`). -/
theorem correction_rule :
    (∀ (Mp : ℝ) (af : Bool) (i : ℕ) (b : Body), radiusOf b < 1e-10 →
      checkBody Mp af i b = ([], b)) ∧
    (∀ (Mp : ℝ) (i : ℕ) (b : Body), 1e-10 ≤ radiusOf b →
      (checkBody Mp true i b).1 ≠ [] →
      (checkBody Mp true i b).2 = { b with
        vx := some (circular_orbit_velocity Mp (radiusOf b) *
          (-(b.y.getD 0) / radiusOf b))
        vy := some (circular_orbit_velocity Mp (radiusOf b) *
          ((b.x.getD 0) / radiusOf b)) }) ∧
    ((checkBody 3.003e-6 true 1 moonBody).1.any Issue.isTooFast = true ∧
      (checkBody 3.003e-6 true 1 moonBody).2.vx = some 0 ∧
      ∃ w, (checkBody 3.003e-6 true 1 moonBody).2.vy = some w ∧
        |w - 0.2148| < 1e-4) := by
  have hmain : ∀ (Mp : ℝ) (i : ℕ) (b : Body), 1e-10 ≤ radiusOf b →
      (checkBody Mp true i b).1 ≠ [] →
      (checkBody Mp true i b).2 = { b with
        vx := some (circular_orbit_velocity Mp (radiusOf b) *
          (-(b.y.getD 0) / radiusOf b))
        vy := some (circular_orbit_velocity Mp (radiusOf b) *
          ((b.x.getD 0) / radiusOf b)) } := by
    intro Mp i b hr hne
    cases hcl : classifyBody (dispName i b) (speedOf b)
        (circular_orbit_velocity Mp (radiusOf b))
        (escape_velocity Mp (radiusOf b)) with
    | none =>
      rw [checkBody_not_near Mp true i b (not_lt.mpr hr) hcl] at hne
      simp at hne
    | some issue =>
      rw [checkBody_flagged_fix Mp i b issue (not_lt.mpr hr) hcl,
        mul_comm (-(b.y.getD 0) / radiusOf b)
          (circular_orbit_velocity Mp (radiusOf b)),
        mul_comm ((b.x.getD 0) / radiusOf b)
          (circular_orbit_velocity Mp (radiusOf b))]
  refine ⟨fun Mp af i b h => checkBody_near Mp af i b h, hmain, ?_, ?_, ?_⟩
  · rw [checkBody_flagged_fix 3.003e-6 1 moonBody _
      (by rw [moon_radius]; norm_num) moon_classify]
    simp [Issue.isTooFast]
  · rw [checkBody_flagged_fix 3.003e-6 1 moonBody _
      (by rw [moon_radius]; norm_num) moon_classify]
    simp [moonBody]
  · refine ⟨circular_orbit_velocity 3.003e-6 0.00257, ?_, ?_⟩
    · rw [checkBody_flagged_fix 3.003e-6 1 moonBody _
        (by rw [moon_radius]; norm_num) moon_classify]
      rw [show ({ moonBody with
          vx := some ((-(moonBody.y.getD 0) / radiusOf moonBody) *
            circular_orbit_velocity 3.003e-6 (radiusOf moonBody))
          vy := some (((moonBody.x.getD 0) / radiusOf moonBody) *
            circular_orbit_velocity 3.003e-6 (radiusOf moonBody)) } : Body).vy =
          some (((moonBody.x.getD 0) / radiusOf moonBody) *
            circular_orbit_velocity 3.003e-6 (radiusOf moonBody)) from rfl,
        moon_radius]
      norm_num [moonBody]
    · rw [abs_lt]
      constructor <;> linarith [moon_circ_lb, moon_circ_ub]

/-- Witness for C4: the rules evaluated at the origin body and at the
Moon example. -/
theorem correction_rule_witness :
    checkBody 1 true 1 centerBody = ([], centerBody) ∧
    (checkBody 3.003e-6 true 1 moonBody).2 = { moonBody with
      vx := some (circular_orbit_velocity 3.003e-6 (radiusOf moonBody) *
        (-(moonBody.y.getD 0) / radiusOf moonBody))
      vy := some (circular_orbit_velocity 3.003e-6 (radiusOf moonBody) *
        ((moonBody.x.getD 0) / radiusOf moonBody)) } := by
  constructor
  · exact correction_rule.1 1 true 1 centerBody (by
      unfold radiusOf centerBody
      simp only [Option.getD_some]
      rw [show ((0:ℝ) ^ 2 + 0 ^ 2) = 0 by norm_num, Real.sqrt_zero]
      norm_num)
  · refine correction_rule.2.1 3.003e-6 1 moonBody
      (by rw [moon_radius]; norm_num) ?_
    have h := correction_rule.2.2.1
    intro h0
    rw [h0] at h
    simp at h

/-- Witness for C3: the classification criterion instantiated at the Moon
example body. -/
theorem velocity_classification_witness :
    ((checkBody 3.003e-6 true 1 moonBody).1.any Issue.isWarning = true ↔
      (speedOf moonBody <
        0.3 * Real.sqrt (G_SOLAR * 3.003e-6 / radiusOf moonBody) ∨
       speedOf moonBody >
        1.5 * Real.sqrt (2 * G_SOLAR * 3.003e-6 / radiusOf moonBody) ∨
       (|speedOf moonBody -
          Real.sqrt (G_SOLAR * 3.003e-6 / radiusOf moonBody)| >
          0.5 * Real.sqrt (G_SOLAR * 3.003e-6 / radiusOf moonBody) ∧
        (speedOf moonBody /
            Real.sqrt (G_SOLAR * 3.003e-6 / radiusOf moonBody) < 0.7 ∨
         speedOf moonBody /
            Real.sqrt (G_SOLAR * 3.003e-6 / radiusOf moonBody) > 1.4)))) ∧
    ((checkBody 3.003e-6 true 1 moonBody).1.any Issue.isWarning = false →
      checkBody 3.003e-6 true 1 moonBody = ([], moonBody)) :=
  velocity_classification 3.003e-6 true 1 moonBody
    (by rw [moon_radius]; norm_num)

/-- C9: `smart_validate_scenario` returns exactly the result of
`validate_and_fix_scenario` with `auto_fix=True`, whether or not the
multi-primary (binary mass-ratio) condition triggers. -/
theorem smart_validate_eq_validate_and_fix (s : Scenario) (verbose : Bool) :
    smart_validate_scenario s verbose = validate_and_fix_scenario s true := by
  obtain ⟨meta, bodies⟩ := s
  cases bodies with
  | nil => rfl
  | cons p rest =>
    cases rest with
    | nil => rfl
    | cons b2 rest2 =>
      simp only [smart_validate_scenario]
      split_ifs <;> rfl

/-- C7: `step` on a session with no scenario loaded raises the "not loaded"
error, while `get_frame` does not fail and returns the empty Frame with
`t = 0`, `N = 0`, no bodies and `energy_drift = 0`. -/
theorem step_and_frame_unloaded (integrate : ℝ → SimState → SimState)
    (energy : SimState → ℝ) (eng : Engine) (h : eng.sim = none) (n : ℕ) :
    eng.step integrate energy n = .error
      "No simulation loaded. Call load_scenario() or load_from_horizons() first." ∧
    eng.get_frame energy = { t := 0.0, N := 0, bodies := [], energy_drift := 0.0 } := by
  constructor
  · unfold Engine.step
    rw [h]
  · unfold Engine.get_frame
    rw [h]

/-- Witness for C7: the unloaded engine evaluated with a trivial integrator
and energy function. -/
theorem step_and_frame_unloaded_witness :
    unloadedEngine.step (fun _ s => s) (fun _ => 0) 1 = .error
      "No simulation loaded. Call load_scenario() or load_from_horizons() first." ∧
    unloadedEngine.get_frame (fun _ => 0) =
      { t := 0.0, N := 0, bodies := [], energy_drift := 0.0 } :=
  step_and_frame_unloaded (fun _ s => s) (fun _ => 0) unloadedEngine rfl 1

lemma elementsLoop_length (orbitOf : Particle → Particle → Except String OrbitRec)
    (eng : Engine) (primary : Particle) (i : ℕ) (ps : List Particle) :
    (elementsLoop orbitOf eng primary i ps).length = ps.length := by
  induction ps generalizing i with
  | nil => rfl
  | cons p ps ih => simp only [elementsLoop, List.length_cons, ih (i + 1)]

lemma elementsLoop_get? (orbitOf : Particle → Particle → Except String OrbitRec)
    (eng : Engine) (primary : Particle) (i j : ℕ) (ps : List Particle) :
    (elementsLoop orbitOf eng primary i ps).get? j =
      (ps.get? j).map fun p => entryFor orbitOf eng primary (i + j) p := by
  induction ps generalizing i j with
  | nil => simp [elementsLoop]
  | cons p ps ih =>
    cases j with
    | zero => simp [elementsLoop]
    | succ j' =>
      simp only [elementsLoop, List.get?_cons_succ]
      rw [ih (i + 1) j', show i + 1 + j' = i + (j' + 1) from by omega]

/-- C8: `get_orbital_elements` produces one entry per body other than
particle 0, each computed relative to particle 0 and depending only on that
body's own orbit computation; a body whose orbit computation fails yields a
per-body `{name, error}` entry while every other body's entry is still
returned (the call is total by construction: the per-body `try/except` is
the `Except`-valued `entryFor`). -/
theorem get_orbital_elements_isolation
    (orbitOf : Particle → Particle → Except String OrbitRec) (eng : Engine)
    (s : SimState) (primary : Particle) (tail : List Particle)
    (hsim : eng.sim = some s) (hp : s.particles = primary :: tail)
    (htwo : 2 ≤ s.particles.length) :
    (eng.get_orbital_elements orbitOf).length = s.particles.length - 1 ∧
    (∀ j p, tail.get? j = some p →
      (eng.get_orbital_elements orbitOf).get? j =
        some (entryFor orbitOf eng primary (j + 1) p)) ∧
    (∀ j p msg, tail.get? j = some p → orbitOf p primary = .error msg →
      (eng.get_orbital_elements orbitOf).get? j =
        some (.err (infoName eng (j + 1)) msg)) := by
  have hred : eng.get_orbital_elements orbitOf =
      elementsLoop orbitOf eng primary 1 tail := by
    unfold Engine.get_orbital_elements
    rw [hsim]
    have hlt : ¬ s.particles.length < 2 := not_lt.mpr htwo
    show (if s.particles.length < 2 then [] else
      match s.particles with
      | [] => []
      | primary :: tail => elementsLoop orbitOf eng primary 1 tail) =
      elementsLoop orbitOf eng primary 1 tail
    rw [if_neg hlt, hp]
  refine ⟨?_, ?_, ?_⟩
  · rw [hred, elementsLoop_length, hp]
    simp
  · intro j p hj
    rw [hred, elementsLoop_get? orbitOf eng primary 1 j tail, hj,
      Option.map_some', show 1 + j = j + 1 from by omega]
  · intro j p msg hj horb
    rw [hred, elementsLoop_get? orbitOf eng primary 1 j tail, hj,
      Option.map_some', show 1 + j = j + 1 from by omega]
    unfold entryFor
    rw [horb]

/-- Witness for C8: the three-particle engine with one well-defined and one
unbound body: the batch returns both entries, the second being the error
entry, with nothing raised. -/
theorem get_orbital_elements_isolation_witness :
    (engineW.get_orbital_elements orbitW).length = 2 ∧
    (engineW.get_orbital_elements orbitW).get? 0 =
      some (entryFor orbitW engineW primaryW 1 ellipticalW) ∧
    (engineW.get_orbital_elements orbitW).get? 1 =
      some (.err (infoName engineW 2) "unbound orbit") := by
  have h := get_orbital_elements_isolation orbitW engineW
    ⟨0, [primaryW, ellipticalW, unboundW]⟩ primaryW [ellipticalW, unboundW]
    rfl rfl (by simp)
  refine ⟨?_, ?_, ?_⟩
  · rw [h.1]
    rfl
  · exact h.2.1 0 ellipticalW rfl
  · exact h.2.2 1 unboundW "unbound orbit" rfl
      (by simp [orbitW, unboundW])

lemma trajState_len (integrate : ℝ → SimState → SimState)
    (hN : ∀ T s', (integrate T s').particles.length = s'.particles.length)
    (t0 dt : ℝ) (s : SimState) :
    ∀ k, (trajState integrate t0 dt s k).particles.length =
      s.particles.length := by
  intro k
  induction k with
  | zero => rfl
  | succ k ih => rw [trajState, hN, ih]

lemma appendPositions_full (ps : List Particle) :
    ∀ (N : ℕ) (f : ℕ → List (ℝ × ℝ)), ps.length = N →
    appendPositions ((List.range N).map f) ps =
      some ((List.range N).map fun i =>
        f i ++ [(roundTo 4 (ps.getD i default).x,
                 roundTo 4 (ps.getD i default).y)]) := by
  induction ps with
  | nil =>
    intro N f h
    subst h
    rfl
  | cons p ps ih =>
    intro N f h
    subst h
    simp only [List.length_cons, List.range_succ_eq_map, List.map_cons,
      List.map_map, appendPositions]
    rw [ih ps.length (f ∘ Nat.succ) rfl]
    simp [Function.comp]

lemma trajLoop_spec (integrate : ℝ → SimState → SimState)
    (hN : ∀ T s', (integrate T s').particles.length = s'.particles.length)
    (t0 dt : ℝ) (s : SimState) :
    ∀ (rem step : ℕ),
      trajLoop integrate t0 dt step rem (trajState integrate t0 dt s step)
        ((List.range s.particles.length).map fun i =>
          (List.range step).map fun k => posSample integrate t0 dt s i (k + 1)) =
      some (trajState integrate t0 dt s (step + rem),
        (List.range s.particles.length).map fun i =>
          (List.range (step + rem)).map fun k =>
            posSample integrate t0 dt s i (k + 1)) := by
  intro rem
  induction rem with
  | zero => intro step; rfl
  | succ n ih =>
    intro step
    simp only [trajLoop]
    have hs' : integrate (t0 + step * dt) (trajState integrate t0 dt s step) =
        trajState integrate t0 dt s (step + 1) := rfl
    rw [hs']
    rw [appendPositions_full (trajState integrate t0 dt s (step + 1)).particles
      s.particles.length
      (fun i => (List.range step).map fun k => posSample integrate t0 dt s i (k + 1))
      (trajState_len integrate hN t0 dt s (step + 1))]
    rw [Option.some_bind]
    have hlist : ∀ i : ℕ,
        ((List.range step).map fun k => posSample integrate t0 dt s i (k + 1)) ++
          [(roundTo 4 (((trajState integrate t0 dt s (step + 1)).particles.getD i
              default).x),
            roundTo 4 (((trajState integrate t0 dt s (step + 1)).particles.getD i
              default).y))] =
        (List.range (step + 1)).map fun k =>
          posSample integrate t0 dt s i (k + 1) := by
      intro i
      rw [List.range_succ, List.map_append]
      rfl
    simp only [hlist]
    rw [show step + (n + 1) = step + 1 + n from by omega]
    exact ih (step + 1)

/-- C6: `get_trajectories` operates only on an independent copy of the
integrator state: it returns the live engine unchanged, and for each of the
engine's bodies exactly `n_points` position samples, sample `k` being taken
with the copy integrated to time `t + k·(duration/n_points)` — `n_points`
equally spaced times, none exceeding `t + duration`. -/
theorem get_trajectories_preview (integrate : ℝ → SimState → SimState)
    (eng : Engine) (s : SimState) (duration : ℝ) (n_points : ℕ)
    (hsim : eng.sim = some s)
    (hN : ∀ T s', (integrate T s').particles.length = s'.particles.length)
    (hT : ∀ T s', (integrate T s').t = T)
    (hn : 0 < n_points) (hd : 0 ≤ duration) :
    eng.get_trajectories integrate duration n_points =
      some (((List.range s.particles.length).map fun i =>
        (List.range n_points).map fun k =>
          posSample integrate s.t (duration / (n_points : ℝ)) s i (k + 1)),
        eng) ∧
    (∀ k : ℕ, (trajState integrate s.t (duration / (n_points : ℝ)) s (k + 1)).t =
      s.t + k * (duration / (n_points : ℝ))) ∧
    (∀ k : ℕ, k < n_points →
      s.t + k * (duration / (n_points : ℝ)) ≤ s.t + duration) := by
  refine ⟨?_, ?_, ?_⟩
  · unfold Engine.get_trajectories
    rw [hsim]
    show (trajLoop integrate s.t (duration / (n_points : ℝ)) 0 n_points s
        ((List.range s.particles.length).map fun _ => ([] : List (ℝ × ℝ)))).map
        (fun pr => (pr.2, eng)) = _
    have h0 := trajLoop_spec integrate hN s.t (duration / (n_points : ℝ)) s
      n_points 0
    rw [Nat.zero_add] at h0
    have h0' : trajLoop integrate s.t (duration / (n_points : ℝ)) 0 n_points s
        ((List.range s.particles.length).map fun _ => ([] : List (ℝ × ℝ))) =
        some (trajState integrate s.t (duration / (n_points : ℝ)) s n_points,
          (List.range s.particles.length).map fun i =>
            (List.range n_points).map fun k =>
              posSample integrate s.t (duration / (n_points : ℝ)) s i (k + 1)) := h0
    rw [h0', Option.map_some']
  · intro k
    exact hT _ _
  · intro k hk
    have hdt : (0:ℝ) ≤ duration / (n_points : ℝ) := by positivity
    have hkn : (k:ℝ) ≤ (n_points : ℝ) := by exact_mod_cast hk.le
    have hne : ((n_points : ℕ) : ℝ) ≠ 0 := Nat.cast_ne_zero.mpr hn.ne'
    have heq : (n_points : ℝ) * (duration / (n_points : ℝ)) = duration := by
      field_simp
    have hmul := mul_le_mul_of_nonneg_right hkn hdt
    linarith

/-- Witness for C6: the three-body engine previewed for duration 1 with 2
sample points under the clock-jumping model integrator. -/
theorem get_trajectories_preview_witness :
    engineW.get_trajectories integW 1 2 =
      some (((List.range 3).map fun i =>
        (List.range 2).map fun k =>
          posSample integW 0 ((1:ℝ) / ((2:ℕ) : ℝ))
            ⟨0, [primaryW, ellipticalW, unboundW]⟩ i (k + 1)),
        engineW) :=
  (get_trajectories_preview integW engineW
    ⟨0, [primaryW, ellipticalW, unboundW]⟩ 1 2 rfl (fun _ _ => rfl)
    (fun _ _ => rfl) (by norm_num) (by norm_num)).1
